import Mathlib

/-!
Verification development for the `esp-nt-rsl` repository: a desk-side serial
link controller driving an RGB indicator (ESP32) from FMS status and voltage.

Shallow embedding of the three source files:
  * `serialHelper.py` — class `SerialLink` (brightness scaling, change
    suppression, heartbeat loop, reconnect, a non-reentrant `threading.Lock`);
  * `rslComm.py` — a second, simpler `SerialLink` plus the `FMSStatusApp`
    blink overlay (`start_blink` / `stop_blink` / `_blink_step`) and
    `hex_to_rgb`;
  * `colorpicker.py` — a UI-only caller, not needed by any claim.

Modelling conventions:
  * Wire messages are `List Char` (the source writes ASCII strings);
    the transport is a log `written : List (List Char)` of messages that were
    successfully written, newest last.
  * Transport nondeterminism (does a `ser.write` raise? does a reconnect
    find a port and open it?) is passed in as explicit booleans
    `writeOk` / `reconnectOk`.
  * Python floats for brightness are modelled as rationals; `int(x)`
    (truncation toward zero) is `pyInt`.
  * The non-reentrant `threading.Lock` of `serialHelper.SerialLink` is
    modelled by giving `close` a `lockHeld` flag: acquiring the lock while it
    is already held by the same call blocks forever, which the embedding
    represents as the result `none` (the operation never returns).
  * Tkinter's `root.after` scheduling of `_blink_step` is modelled by a
    counter `pending` of not-yet-fired scheduled blink callbacks.
-/

namespace RSL

/-- An RGB triple as handed around by the source (Python tuples of ints). -/
abbrev RGB := ℕ × ℕ × ℕ

/-- Python `int(q)` on a rational: truncation toward zero. -/
def pyInt (q : ℚ) : ℤ := if 0 ≤ q then ⌊q⌋ else ⌈q⌉

/-- One channel of `serialHelper.SerialLink.send_rgb_if_changed` line 112:
`max(0, min(255, int(c * self.brightness)))`. -/
def scaleChan (b : ℚ) (c : ℕ) : ℕ := (max 0 (min 255 (pyInt ((c : ℚ) * b)))).toNat

/-- The scaled tuple of `send_rgb_if_changed` (all three channels). -/
def scaleRGB (b : ℚ) (c : RGB) : RGB := (scaleChan b c.1, scaleChan b c.2.1, scaleChan b c.2.2)

/-- One channel of the rescale in `serialHelper.SerialLink.set_brightness`
line 78: `int(c * self.brightness)` — note: no clamp there. The stored
brightness is already clamped to `[0,1]`, so the value is nonnegative. -/
def rescaleChan (b : ℚ) (c : ℕ) : ℕ := (pyInt ((c : ℚ) * b)).toNat

/-- The rescaled tuple built by `set_brightness` from `self.last_rgb`. -/
def rescaleRGB (b : ℚ) (c : RGB) : RGB :=
  (rescaleChan b c.1, rescaleChan b c.2.1, rescaleChan b c.2.2)

/-- Decimal digit character, `Char.ofNat (48 + d)` = `'0' + d`. -/
def digitChar (d : ℕ) : Char := Char.ofNat (48 + d)

/-- Fuel-bounded decimal conversion, structurally recursive so that closed
terms reduce in the kernel; the argument strictly decreases (`n / 10 < n` for
`n ≥ 10`), so the fuel `n + 1` supplied by `decChars` is never exhausted. -/
def decCharsFuel : ℕ → ℕ → List Char
  | 0, _ => []
  | fuel + 1, n =>
      if n < 10 then [digitChar n]
      else decCharsFuel fuel (n / 10) ++ [digitChar (n % 10)]

/-- Python `str(n)` for a nonnegative int `n`, as a character list. -/
def decChars (n : ℕ) : List Char := decCharsFuel (n + 1) n

/-- The f-string `f"LED {r} {g} {b}"` of `serialHelper.send_rgb_if_changed`
line 116 (no trailing newline; `send_message` appends it). -/
def ledMsg (c : RGB) : List Char :=
  "LED ".toList ++ decChars c.1 ++ [' '] ++ decChars c.2.1 ++ [' '] ++ decChars c.2.2

/-- The newline normalisation of `serialHelper.send_message` lines 94-95:
`if not message.endswith("\n"): message += "\n"`. -/
def wireLine (m : List Char) : List Char :=
  if m.getLast? = some '\n' then m else m ++ ['\n']

/-- State of `serialHelper.SerialLink`. `isOpen` models
`self.ser is not None and self.ser.is_open`; `written` logs successful
transport writes; `reconnect_attempts` counts entries into `try_reconnect`
(to observe whether a given operation attempted a reconnect). -/
structure SLState where
  brightness : ℚ
  isOpen : Bool
  last_rgb : Option RGB
  last_sent : Option (List Char)
  auto_reconnect : Bool
  heartbeat_message : List Char
  written : List (List Char)
  reconnect_attempts : ℕ
  deriving Repr, DecidableEq

/-- `serialHelper.SerialLink.try_reconnect` lines 145-157: enumerate ports and
open the target; on success the handle is replaced (`last_rgb = None`),
on failure state is unchanged. `reconnectOk` abstracts "a port exists and
`serial.Serial(...)` succeeds". Returns the Python boolean result. -/
def try_reconnect (reconnectOk : Bool) (s : SLState) : SLState × Bool :=
  let s1 := { s with reconnect_attempts := s.reconnect_attempts + 1 }
  if reconnectOk then ({ s1 with isOpen := true, last_rgb := none }, true)
  else (s1, false)

/-- `serialHelper.SerialLink.close` lines 57-68. It stops the heartbeat, then
does `with self.lock: ...`. `threading.Lock` is not reentrant, so if the
calling thread already holds `self.lock` (`lockHeld = true`) the acquisition
blocks forever: result `none`. Otherwise the transport is closed and
`last_rgb` cleared. -/
def close (lockHeld : Bool) (s : SLState) : Option SLState :=
  if lockHeld then none
  else some { s with isOpen := false, last_rgb := none }

/-- `serialHelper.SerialLink.send_message` lines 82-102. Faithful structure:
reconnect attempt when closed; early `False` when still closed; optional
`only_if_changed` suppression (compared against the stored, already
newline-terminated `_last_sent`); then, under `self.lock`, append `"\n"` if
missing and write. A raising write (`writeOk = false`) enters the `except`
branch, which calls `self.close()` while `self.lock` is held — `close` then
blocks forever on re-acquiring the non-reentrant lock, hence `none`. -/
def sendMessage (writeOk reconnectOk : Bool) (message : List Char)
    (onlyIfChanged : Bool) (s : SLState) : Option (SLState × Bool) :=
  let s0 := if s.isOpen = false ∧ s.auto_reconnect = true
            then (try_reconnect reconnectOk s).1 else s
  if s0.isOpen = false then some (s0, false)
  else if onlyIfChanged = true ∧ s0.last_sent = some message then some (s0, false)
  else if writeOk then
    some ({ s0 with written := s0.written ++ [wireLine message],
                    last_sent := some (wireLine message) }, true)
  else (close true s0).map (fun s2 => (s2, false))

/-- `serialHelper.SerialLink.send_rgb_if_changed` lines 105-119: reconnect if
closed, early `False` if still closed, scale by brightness with per-channel
clamp, suppress when equal to `last_rgb`, else send `LED r g b` and update
`last_rgb` on success. -/
def send_rgb_if_changed (writeOk reconnectOk : Bool) (rgb : RGB) (s : SLState) :
    Option (SLState × Bool) :=
  let s0 := if s.isOpen = false ∧ s.auto_reconnect = true
            then (try_reconnect reconnectOk s).1 else s
  if s0.isOpen = false then some (s0, false)
  else
    let scaled := scaleRGB s0.brightness rgb
    if s0.last_rgb = some scaled then some (s0, false)
    else
      match sendMessage writeOk reconnectOk (ledMsg scaled) false s0 with
      | none => none
      | some (s2, ok) =>
          some (if ok then ({ s2 with last_rgb := some scaled }, true) else (s2, false))

/-- `serialHelper.SerialLink.set_brightness` lines 74-79: clamp and store the
factor; if `self.last_rgb` is set (a nonempty tuple is always truthy),
rescale that already-scaled stored value with `int(c * brightness)` and pass
it to `send_rgb_if_changed`, which scales by the brightness a second time. -/
def set_brightness (writeOk reconnectOk : Bool) (value : ℚ) (s : SLState) :
    Option SLState :=
  let s1 := { s with brightness := max 0 (min 1 value) }
  match s1.last_rgb with
  | none => some s1
  | some rgb =>
      (send_rgb_if_changed writeOk reconnectOk (rescaleRGB s1.brightness rgb) s1).map
        (fun p => p.1)

/-- `serialHelper.SerialLink.send_heartbeat` lines 121-122:
`send_message(self.heartbeat_message, only_if_changed=False)`. -/
def send_heartbeat (writeOk reconnectOk : Bool) (s : SLState) :
    Option (SLState × Bool) :=
  sendMessage writeOk reconnectOk s.heartbeat_message false s

/-- One iteration of `serialHelper.SerialLink._heartbeat_loop` lines 136-142
(the body guarded by the stop event): heartbeat when open, otherwise a
reconnect attempt when `auto_reconnect` (the Tk callback on success is not
modelled), otherwise nothing; then the interval sleep. -/
def heartbeatTick (writeOk reconnectOk : Bool) (s : SLState) : Option SLState :=
  if s.isOpen = true then (send_heartbeat writeOk reconnectOk s).map (fun p => p.1)
  else if s.auto_reconnect = true then some (try_reconnect reconnectOk s).1
  else some s

/-! ## The second `SerialLink`, in `rslComm.py` (lines 46-93)

This one has no lock, no brightness and no reconnect: `send_rgb_if_changed`
writes the raw tuple, and a raising write drops the link silently
(`self.close()` wrapped in its own `try`). -/

/-- The f-string `f"LED {r} {g} {b}\n"` of `rslComm.SerialLink` line 76
(newline included at the call site). -/
def rcLedMsg (c : RGB) : List Char := ledMsg c ++ ['\n']

/-- State of `rslComm.SerialLink` (`__init__` lines 47-49). -/
structure RCLink where
  isOpen : Bool
  last_rgb : Option RGB
  written : List (List Char)
  deriving Repr, DecidableEq

/-- `rslComm.SerialLink.close` lines 56-63: close the handle if open, then
`self.ser = None; self.last_rgb = None`. -/
def RCLink.close (s : RCLink) : RCLink := { s with isOpen := false, last_rgb := none }

/-- `rslComm.SerialLink.send_rgb_if_changed` lines 68-84: return if not open;
return if `last_rgb == rgb`; else write `LED r g b\n` and record `last_rgb`;
a raising write closes the link silently (no exception escapes). -/
def rcSendRgbIfChanged (writeOk : Bool) (rgb : RGB) (s : RCLink) : RCLink :=
  if s.isOpen = false then s
  else if s.last_rgb = some rgb then s
  else if writeOk then { s with written := s.written ++ [rcLedMsg rgb], last_rgb := some rgb }
  else s.close

/-! ## The blink overlay of `FMSStatusApp` in `rslComm.py` (lines 214-259)

`root.after(interval, self._blink_step)` is modelled by incrementing
`pending`, the number of scheduled-but-not-yet-fired blink callbacks.
Neither `start_blink` nor `stop_blink` ever cancels a pending callback
(the source has no `after_cancel`). -/

/-- Blink-relevant state of `FMSStatusApp` (`__init__` lines 105-109) together
with its `self.serial` link. -/
structure AppState where
  blinking : Bool
  blink_state : Bool
  blink_rgb : Option RGB
  blink_interval : ℕ
  pending : ℕ
  link : RCLink
  deriving Repr, DecidableEq

/-- `FMSStatusApp._blink_step` lines 240-259: return if not blinking or no
target; on the "off" phase send amber `(255,255,0)`, on the "on" phase send
the target; flip the phase; schedule the next step (`pending + 1`). The UI
background update is not modelled. -/
def blinkStep (writeOk : Bool) (s : AppState) : AppState :=
  match s.blink_rgb with
  | none => s
  | some rgb =>
      if s.blinking = false then s
      else
        let link1 := if s.blink_state = true
                     then rcSendRgbIfChanged writeOk (255, 255, 0) s.link
                     else rcSendRgbIfChanged writeOk rgb s.link
        { s with link := link1, blink_state := !s.blink_state, pending := s.pending + 1 }

/-- `FMSStatusApp.start_blink` lines 214-225 (the target already converted by
`hex_to_rgb`): no-op when already blinking the identical target; otherwise
set state, reset the phase to "on" (`blink_state = False`) and immediately
run one `_blink_step` (which also schedules the next). -/
def start_blink (writeOk : Bool) (rgb : RGB) (interval : ℕ) (s : AppState) : AppState :=
  if s.blinking = true ∧ s.blink_rgb = some rgb then s
  else blinkStep writeOk { s with blinking := true, blink_rgb := some rgb,
                                  blink_interval := interval, blink_state := false }

/-- `FMSStatusApp.stop_blink` lines 227-238: no-op when not blinking;
otherwise clear the blink flags, and if a target is set, send it through
`send_rgb_if_changed` (the change-suppressed path); finally clear the
target. -/
def stop_blink (writeOk : Bool) (s : AppState) : AppState :=
  if s.blinking = false then s
  else
    let s1 := { s with blinking := false, blink_state := false }
    match s1.blink_rgb with
    | none => { s1 with blink_rgb := none }
    | some rgb =>
        { s1 with link := rcSendRgbIfChanged writeOk rgb s1.link, blink_rgb := none }

/-- The Tk event loop fires one scheduled `_blink_step` callback: one pending
entry is consumed, then `_blink_step` runs (possibly re-scheduling). -/
def fireStep (writeOk : Bool) (s : AppState) : AppState :=
  match s.pending with
  | 0 => s
  | n + 1 => blinkStep writeOk { s with pending := n }

/-! ## Hex colors, `rslComm.py` lines 37-39 and the `'#%02x%02x%02x'` format -/

/-- Lowercase hex digit character: `'0' + d` for `d < 10`, `'a' + (d - 10)`
for `10 ≤ d < 16` (so `Char.ofNat (87 + d)`). -/
def hexDigitChar (d : ℕ) : Char :=
  if d < 10 then Char.ofNat (48 + d) else Char.ofNat (87 + d)

/-- Python `'%02x' % n` for `n` in `[0,255]`: exactly two lowercase hex
digits with a leading zero. (For larger `n` Python prints more digits; the
source only formats 8-bit channels.) -/
def fmt02x (n : ℕ) : List Char := [hexDigitChar (n / 16), hexDigitChar (n % 16)]

/-- The `'#%02x%02x%02x' % rgb` format used for UI colors and in `stop_blink`
line 235. -/
def colorHex (c : RGB) : List Char :=
  '#' :: (fmt02x c.1 ++ fmt02x c.2.1 ++ fmt02x c.2.2)

/-- Value of a hex digit character, as accepted by Python `int(x, 16)`
(both cases); `none` for a non-hex character (where `int` raises). -/
def hexVal (c : Char) : Option ℕ :=
  if '0' ≤ c ∧ c ≤ '9' then some (c.toNat - 48)
  else if 'a' ≤ c ∧ c ≤ 'f' then some (c.toNat - 87)
  else if 'A' ≤ c ∧ c ≤ 'F' then some (c.toNat - 55)
  else none

/-- Python `int(s, 16)` applied to a two-character slice (the only shape
`hex_to_rgb` produces on its six-digit inputs); shorter or non-hex slices
make `int` raise, modelled as `none`. -/
def parseHex2 : List Char → Option ℕ
  | [c1, c2] => do
      let v1 ← hexVal c1
      let v2 ← hexVal c2
      pure (16 * v1 + v2)
  | _ => none

/-- `rslComm.hex_to_rgb` lines 37-39: strip all leading `'#'`
(`str.lstrip("#")`), then parse the slices `[0:2]`, `[2:4]`, `[4:6]` in
base 16. -/
def hex_to_rgb (l : List Char) : Option RGB :=
  let t := l.dropWhile (fun c => c = '#')
  do
    let r ← parseHex2 (t.take 2)
    let g ← parseHex2 ((t.drop 2).take 2)
    let b ← parseHex2 ((t.drop 4).take 2)
    pure (r, g, b)

/-! ## Concrete states used as inputs of counterexamples and witnesses

All are reachable: a freshly opened `serialHelper.SerialLink` has
`last_rgb = None`, `_last_sent` unset, and the constructor defaults
`auto_reconnect=True`, `heartbeat_message="Hallo/n"`, `brightness=1.0`;
a fresh `FMSStatusApp` starts with `blinking = False` and an open link after
`toggle_connect`. -/

/-- A freshly opened `serialHelper.SerialLink` with constructor defaults. -/
def freshSL : SLState :=
  { brightness := 1, isOpen := true, last_rgb := none, last_sent := none,
    auto_reconnect := true, heartbeat_message := "Hallo/n".toList, written := [],
    reconnect_attempts := 0 }

/-- An open `serialHelper.SerialLink` at brightness `0.75` that has written
one color but whose suppression state was cleared, as after a reconnect
(`try_reconnect` sets `last_rgb = None`). -/
def reconSL : SLState :=
  { brightness := 3 / 4, isOpen := true, last_rgb := none,
    last_sent := some ("LED 191 0 0\n".toList), auto_reconnect := true,
    heartbeat_message := "Hallo/n".toList, written := ["LED 191 0 0\n".toList],
    reconnect_attempts := 0 }

/-- A closed `serialHelper.SerialLink` (as after a connection loss). -/
def closedSL : SLState :=
  { brightness := 1, isOpen := false, last_rgb := none, last_sent := none,
    auto_reconnect := true, heartbeat_message := "Hallo/n".toList, written := [],
    reconnect_attempts := 0 }

/-- A fresh `FMSStatusApp` blink state over an open `rslComm.SerialLink`. -/
def freshApp : AppState :=
  { blinking := false, blink_state := false, blink_rgb := none,
    blink_interval := 1000, pending := 0,
    link := { isOpen := true, last_rgb := none, written := [] } }

/-- An `FMSStatusApp` mid-blink: the "off" (amber) phase was the last step
driven, so the next step is "on" and `last_rgb` holds the amber color. -/
def offPhaseApp : AppState :=
  { blinking := true, blink_state := false, blink_rgb := some (255, 0, 0),
    blink_interval := 600, pending := 1,
    link := { isOpen := true, last_rgb := some (255, 255, 0),
              written := ["LED 255 0 0\n".toList, "LED 255 255 0\n".toList] } }

/-! ## Helper lemmas -/

lemma pyInt_of_nonneg (q : ℚ) (h : 0 ≤ q) : pyInt q = ⌊q⌋ := if_pos h

lemma scaleChan_le_255 (b : ℚ) (c : ℕ) : scaleChan b c ≤ 255 := by
  rw [scaleChan]
  have h : max 0 (min 255 (pyInt ((c : ℚ) * b))) ≤ (255 : ℤ) :=
    max_le (by norm_num) (min_le_left _ _)
  omega

/-- For an in-range channel and factor, the clamp in
`max(0, min(255, int(c * brightness)))` never fires and `int` is the floor. -/
lemma scaleChan_eq_floor (b : ℚ) (c : ℕ) (hb0 : 0 ≤ b) (hb1 : b ≤ 1)
    (hc : c ≤ 255) : scaleChan b c = (⌊(c : ℚ) * b⌋).toNat := by
  have h0 : (0 : ℚ) ≤ (c : ℚ) * b := mul_nonneg (Nat.cast_nonneg c) hb0
  have hfl0 : (0 : ℤ) ≤ ⌊(c : ℚ) * b⌋ := Int.floor_nonneg.mpr h0
  have hub : (c : ℚ) * b ≤ 255 := by
    calc (c : ℚ) * b ≤ (c : ℚ) * 1 :=
          mul_le_mul_of_nonneg_left hb1 (Nat.cast_nonneg c)
      _ = (c : ℚ) := mul_one _
      _ ≤ 255 := by exact_mod_cast hc
  have hfl255 : ⌊(c : ℚ) * b⌋ ≤ 255 := by
    calc ⌊(c : ℚ) * b⌋ ≤ ⌊(255 : ℚ)⌋ := Int.floor_le_floor hub
      _ = 255 := by norm_num
  rw [scaleChan, pyInt_of_nonneg _ h0, min_eq_right hfl255, max_eq_right hfl0]

lemma scaleChan_one (c : ℕ) (hc : c ≤ 255) : scaleChan 1 c = c := by
  rw [scaleChan_eq_floor 1 c (by norm_num) le_rfl hc, mul_one, Int.floor_natCast,
    Int.toNat_natCast]

lemma scaleChan_half_100 : scaleChan (1 / 2) 100 = 50 := by
  rw [scaleChan_eq_floor _ _ (by norm_num) (by norm_num) (by norm_num),
    show ⌊((100 : ℕ) : ℚ) * (1 / 2)⌋ = 50 by norm_num]
  rfl

lemma scaleChan_zero_chan (b : ℚ) (hb0 : 0 ≤ b) (hb1 : b ≤ 1) :
    scaleChan b 0 = 0 := by
  rw [scaleChan_eq_floor b 0 hb0 hb1 (by norm_num)]
  norm_num

lemma scaleRGB_one (c : RGB) (h1 : c.1 ≤ 255) (h2 : c.2.1 ≤ 255)
    (h3 : c.2.2 ≤ 255) : scaleRGB 1 c = c := by
  rw [scaleRGB, scaleChan_one _ h1, scaleChan_one _ h2, scaleChan_one _ h3]

lemma rescaleRGB_half_200 : rescaleRGB (1 / 2) (200, 0, 0) = (100, 0, 0) := by
  have h200 : rescaleChan (1 / 2) 200 = 100 := by
    rw [rescaleChan, pyInt_of_nonneg _ (by norm_num),
      show ⌊((200 : ℕ) : ℚ) * (1 / 2)⌋ = 100 by norm_num]
    rfl
  have h0 : rescaleChan (1 / 2) 0 = 0 := by
    rw [rescaleChan, pyInt_of_nonneg _ (by norm_num)]
    norm_num
  rw [rescaleRGB, h200, h0]

lemma scaleRGB_half_100_rgb : scaleRGB (1 / 2) (100, 0, 0) = (50, 0, 0) := by
  rw [scaleRGB, scaleChan_half_100, scaleChan_zero_chan _ (by norm_num) (by norm_num)]

lemma decCharsFuel_getLast (fuel : ℕ) :
    ∀ n : ℕ, n < fuel → ∃ d, d < 10 ∧ (decCharsFuel fuel n).getLast? = some (digitChar d) := by
  induction fuel with
  | zero => intro n hn; omega
  | succ fuel ih =>
      intro n _hn
      rw [decCharsFuel]
      by_cases h10 : n < 10
      · exact ⟨n, h10, by rw [if_pos h10]; rfl⟩
      · refine ⟨n % 10, Nat.mod_lt _ (by omega), ?_⟩
        rw [if_neg h10, List.getLast?_append_cons]
        rfl

lemma decChars_getLast (n : ℕ) :
    ∃ d, d < 10 ∧ (decChars n).getLast? = some (digitChar d) :=
  decCharsFuel_getLast (n + 1) n (Nat.lt_succ_self n)

lemma digitChar_ne_newline (d : ℕ) (hd : d < 10) : digitChar d ≠ '\n' := by
  interval_cases d <;> decide

lemma ledMsg_getLast_ne (c : RGB) : ¬ (ledMsg c).getLast? = some '\n' := by
  obtain ⟨d, hd, hlast⟩ := decChars_getLast c.2.2
  have hne : decChars c.2.2 ≠ [] := by
    intro h
    rw [h] at hlast
    exact Option.noConfusion hlast
  rw [ledMsg, List.append_assoc, List.append_assoc, List.append_assoc,
    List.append_assoc, List.getLast?_append_of_ne_nil _ (by simp [hne]),
    List.getLast?_append_of_ne_nil _ (by simp [hne]),
    List.getLast?_append_of_ne_nil _ (by simp [hne]),
    List.getLast?_append_of_ne_nil _ (by simp [hne]),
    List.getLast?_append_of_ne_nil _ hne, hlast]
  intro h
  exact digitChar_ne_newline d hd (Option.some.inj h)

lemma wireLine_ledMsg (c : RGB) : wireLine (ledMsg c) = ledMsg c ++ ['\n'] := by
  rw [wireLine, if_neg (ledMsg_getLast_ne c)]

/-- Evaluation of `send_message` on an open link with a healthy transport and
`only_if_changed=False`: the newline-normalised message is written and
recorded, unconditionally. -/
lemma sendMessage_open_write (rOk : Bool) (s : SLState) (m : List Char)
    (hopen : s.isOpen = true) :
    sendMessage true rOk m false s
      = some ({ s with written := s.written ++ [wireLine m],
                       last_sent := some (wireLine m) }, true) := by
  rw [sendMessage]
  simp [hopen]

/-- Evaluation of `send_rgb_if_changed` on an open link with a healthy
transport when the scaled color differs from `last_rgb`. -/
lemma send_rgb_open_changed (rOk : Bool) (s : SLState) (c : RGB)
    (hopen : s.isOpen = true)
    (hne : ¬ s.last_rgb = some (scaleRGB s.brightness c)) :
    send_rgb_if_changed true rOk c s
      = some ({ s with written := s.written ++ [wireLine (ledMsg (scaleRGB s.brightness c))],
                       last_sent := some (wireLine (ledMsg (scaleRGB s.brightness c))),
                       last_rgb := some (scaleRGB s.brightness c) }, true) := by
  rw [send_rgb_if_changed]
  simp [hopen, hne, sendMessage_open_write]

/-- Evaluation of `send_rgb_if_changed` on an open link when the scaled color
equals `last_rgb`: suppressed, no write, state unchanged. -/
lemma send_rgb_open_suppressed (w rOk : Bool) (s : SLState) (c : RGB)
    (hopen : s.isOpen = true)
    (heq : s.last_rgb = some (scaleRGB s.brightness c)) :
    send_rgb_if_changed w rOk c s = some (s, false) := by
  rw [send_rgb_if_changed]
  simp [hopen, heq]

/-! ## Claim C1 — brightness scaling rounds to nearest -/

/-- Claim C1, as stated, is false on the code: `send_rgb_if_changed` computes
`int(c * brightness)`, which truncates. At channel `3` and factor `1/2` the
code produces `1`, while `clamp(round(3 * 1/2), 0, 255) = 2`. -/
theorem C1_counterexample :
    scaleChan (1 / 2) 3 = 1
      ∧ (max 0 (min 255 (round ((3 : ℚ) * (1 / 2))))).toNat = 2 := by
  constructor
  · rw [scaleChan_eq_floor _ _ (by norm_num) (by norm_num) (by norm_num),
      show ⌊((3 : ℕ) : ℚ) * (1 / 2)⌋ = 1 by norm_num]
    rfl
  · rw [show round ((3 : ℚ) * (1 / 2)) = 2 by rw [round_eq]; norm_num]
    rfl

/-- Claim C1 (amended): for channels in `[0,255]` and a factor in `[0,1]`,
the scaled channel is `clamp(trunc(c * f), 0, 255) = ⌊c * f⌋` — truncation
(floor, for these nonnegative products), not rounding to nearest; the clamp
never alters the truncated value. -/
theorem C1_scale_truncates (b : ℚ) (c : ℕ) (hb0 : 0 ≤ b) (hb1 : b ≤ 1)
    (hc : c ≤ 255) :
    scaleChan b c = (⌊(c : ℚ) * b⌋).toNat ∧ scaleChan b c ≤ 255 :=
  ⟨scaleChan_eq_floor b c hb0 hb1 hc, scaleChan_le_255 b c⟩

/-- Witness for `C1_scale_truncates` at `b = 1/2`, `c = 3`. -/
theorem C1_scale_truncates_witness :
    scaleChan (1 / 2) 3 = (⌊(3 : ℚ) * (1 / 2)⌋).toNat ∧ scaleChan (1 / 2) 3 ≤ 255 :=
  C1_scale_truncates (1 / 2) 3 (by norm_num) (by norm_num) (by norm_num)

/-! ## Claim C2 — stop_blink always issues exactly one write -/

/-- Claim C2, as stated, is false on the code: `stop_blink` restores the
target through `send_rgb_if_changed`, which IS subject to change
suppression. Started from a fresh app, `start_blink((0,0,255))` drives the
"on" phase (one write of the target), so the target is the most recently
transmitted color; the immediately following `stop_blink()` then writes
nothing — the log is unchanged, not extended by one. -/
theorem C2_counterexample :
    (start_blink true (0, 0, 255) 600 freshApp).link.written
        = ["LED 0 0 255\n".toList]
      ∧ (stop_blink true (start_blink true (0, 0, 255) 600 freshApp)).link.written
        = ["LED 0 0 255\n".toList] := by
  constructor
  · rfl
  · rfl

/-- Claim C2 (amended): while blinking with target `t` over an open link,
`stop_blink` issues at most one write of the solid target: exactly one when
`t` differs from the last transmitted color (e.g. when stopped during the
"off" phase), and zero when `t` was the most recently transmitted color
(the final send goes through the change-suppressed path). -/
theorem C2_stop_blink_final_write (s : AppState) (t : RGB)
    (hb : s.blinking = true) (ht : s.blink_rgb = some t)
    (hopen : s.link.isOpen = true) :
    (stop_blink true s).link.written
      = (if s.link.last_rgb = some t then s.link.written
         else s.link.written ++ [rcLedMsg t]) := by
  simp only [stop_blink, hb, Bool.true_eq_false, if_false, ht]
  by_cases h : s.link.last_rgb = some t
  · simp [rcSendRgbIfChanged, hopen, h]
  · simp [rcSendRgbIfChanged, hopen, h]

/-- Witness for `C2_stop_blink_final_write`: stopping during the "off"
phase (amber was last transmitted) writes the target exactly once. -/
theorem C2_stop_blink_final_write_witness :
    (stop_blink true offPhaseApp).link.written
      = (if offPhaseApp.link.last_rgb = some (255, 0, 0) then offPhaseApp.link.written
         else offPhaseApp.link.written ++ [rcLedMsg (255, 0, 0)]) :=
  C2_stop_blink_final_write offPhaseApp (255, 0, 0) rfl rfl rfl

/-! ## Claim C3 — set_brightness rescales from the pre-scale target -/

/-- Evaluation of `set_brightness` when a last color is stored: rescale that
stored (already-scaled) value and hand it to `send_rgb_if_changed` under the
new factor. -/
lemma set_brightness_eval (w rOk : Bool) (v : ℚ) (s : SLState) (rgb : RGB)
    (h : s.last_rgb = some rgb) :
    set_brightness w rOk v s
      = (send_rgb_if_changed w rOk (rescaleRGB (max 0 (min 1 v)) rgb)
          { s with brightness := max 0 (min 1 v) }).map (fun p => p.1) := by
  rw [set_brightness]
  simp [h]

/-- Claim C3 is right and the code is wrong (a bug the design notes of the
specification flag explicitly): `set_brightness` rescales the already-scaled
`last_rgb` and then `send_rgb_if_changed` multiplies by the brightness once
more. From a fresh link at brightness `1.0`: sending `(200,0,0)` writes
`LED 200 0 0`; `set_brightness(0.5)` then writes `LED 50 0 0`
(`int(int(200*0.5)*0.5)`), not the `LED 100 0 0` the claim requires. -/
theorem C3_brightness_rescale_compounds :
    ((send_rgb_if_changed true true (200, 0, 0) freshSL).bind
        (fun p => set_brightness true true (1 / 2) p.1)).map SLState.written
      = some ["LED 200 0 0\n".toList, "LED 50 0 0\n".toList]
    ∧ ¬ ("LED 50 0 0\n".toList = "LED 100 0 0\n".toList) := by
  have hclamp : max 0 (min 1 (1 / 2 : ℚ)) = 1 / 2 := by
    rw [min_eq_right (by norm_num), max_eq_right (by norm_num)]
  have hsc : scaleRGB freshSL.brightness (200, 0, 0) = (200, 0, 0) :=
    scaleRGB_one _ (by norm_num) (by norm_num) (by norm_num)
  have hne1 : ¬ freshSL.last_rgb = some (scaleRGB freshSL.brightness (200, 0, 0)) := by
    simp [freshSL]
  refine ⟨?_, by decide⟩
  rw [send_rgb_open_changed true freshSL (200, 0, 0) rfl hne1]
  simp only [hsc, wireLine_ledMsg, Option.some_bind]
  rw [set_brightness_eval true true (1 / 2) _ (200, 0, 0) rfl, hclamp,
    rescaleRGB_half_200]
  rw [send_rgb_open_changed true _ (100, 0, 0) rfl
    (by simp only [scaleRGB_half_100_rgb]; decide)]
  simp only [scaleRGB_half_100_rgb, wireLine_ledMsg]
  decide

/-! ## Claim C4 — idempotent suppression / changed colors always write -/

/-- Claim C4: on an open link with a healthy transport, a send whose scaled
value differs from `LastSentColor` writes exactly one message and records the
scaled value; repeating the same call is suppressed — no write, result
`False`, and the state (including `LastSentColor`) unchanged. -/
theorem C4_idempotent_suppression (s : SLState) (c : RGB)
    (hopen : s.isOpen = true)
    (hne : ¬ s.last_rgb = some (scaleRGB s.brightness c)) :
    ∃ s1, send_rgb_if_changed true true c s = some (s1, true)
      ∧ s1.written.length = s.written.length + 1
      ∧ s1.last_rgb = some (scaleRGB s.brightness c)
      ∧ send_rgb_if_changed true true c s1 = some (s1, false) := by
  refine ⟨_, send_rgb_open_changed true s c hopen hne, by simp, rfl, ?_⟩
  exact send_rgb_open_suppressed true true _ c hopen rfl

/-- Witness for `C4_idempotent_suppression`: a fresh open link at brightness
`1.0` and the color `(255,0,0)`. -/
theorem C4_idempotent_suppression_witness :
    ∃ s1, send_rgb_if_changed true true (255, 0, 0) freshSL = some (s1, true)
      ∧ s1.written.length = freshSL.written.length + 1
      ∧ s1.last_rgb = some (scaleRGB freshSL.brightness (255, 0, 0))
      ∧ send_rgb_if_changed true true (255, 0, 0) s1 = some (s1, false) :=
  C4_idempotent_suppression freshSL (255, 0, 0) rfl (by simp [freshSL])

/-! ## Claim C5 — write failures are demoted to close-and-return -/

/-- Claim C5 is what the code clearly intends (its `except` branch is
`self.close(); return False`), but in `serialHelper.send_message` the
failing-write path never reaches the `return`: `close()` re-acquires the
already-held non-reentrant `self.lock` and blocks forever, so the send
neither closes the link nor returns the failure result (`none` in the
embedding). The second conjunct shows the `rslComm.SerialLink` variant does
behave as claimed: a failing write closes the link and returns normally. -/
theorem C5_write_failure_never_returns :
    sendMessage false true ("LED 1 2 3".toList) false freshSL = none
    ∧ rcSendRgbIfChanged false (1, 2, 3)
          { isOpen := true, last_rgb := none, written := [] }
        = { isOpen := false, last_rgb := none, written := [] } := by
  constructor
  · rfl
  · rfl

/-! ## Claim C6 — no operation blocks; the failure path must not re-lock -/

/-- Claim C6 names exactly the hazard the code has: `send_message` holds
`self.lock` when its `except` branch calls `self.close()`, and `close`
acquires the same non-reentrant lock, so a send whose transport write raises
blocks indefinitely instead of terminating. `close true _ = none` is the
blocked re-acquisition; the full send on an open link with a failing write
evaluates to `none` (never returns). -/
theorem C6_send_failure_deadlocks :
    close true reconSL = none
    ∧ send_rgb_if_changed false true (9, 8, 7) reconSL = none := by
  constructor
  · rfl
  · rfl

/-! ## Claim C7 — start_blink idempotence and scheduling -/

/-- Claim C7, as stated, is false in its no-duplicate-scheduling part:
starting to blink red schedules one step (`pending = 1`), and a second
`start_blink` with a different color runs `_blink_step` again without
cancelling the first scheduled callback, leaving two pending steps. -/
theorem C7_counterexample :
    (start_blink true (255, 0, 0) 600 freshApp).pending = 1
    ∧ (start_blink true (0, 0, 255) 600
          (start_blink true (255, 0, 0) 600 freshApp)).pending = 2 := by
  constructor
  · rfl
  · rfl

/-- Claim C7 (amended): from a non-blinking state, `start_blink(a)` drives
one step and schedules exactly one callback; repeating it with the same
color is a no-op (one phase restart, still one pending step). With a
different color it restarts the oscillation at the "on" phase (the step just
driven sent the new target, leaving `blink_state = true`), but the
previously scheduled step is not cancelled: the pending count rises to two,
so more than one scheduled blink step can exist at a time. -/
theorem C7_start_blink_restart (w : Bool) (s : AppState) (a b : RGB) (i j : ℕ)
    (h : s.blinking = false) :
    (start_blink w a i s).pending = s.pending + 1
    ∧ (start_blink w a i s).blink_state = true
    ∧ (start_blink w a i s).blink_rgb = some a
    ∧ start_blink w a j (start_blink w a i s) = start_blink w a i s
    ∧ (¬ a = b →
        (start_blink w b j (start_blink w a i s)).pending = s.pending + 2
        ∧ (start_blink w b j (start_blink w a i s)).blink_state = true
        ∧ (start_blink w b j (start_blink w a i s)).blink_rgb = some b) := by
  have h1 : start_blink w a i s
      = { s with blinking := true, blink_rgb := some a, blink_interval := i,
                 blink_state := true, pending := s.pending + 1,
                 link := rcSendRgbIfChanged w a s.link } := by
    rw [start_blink, if_neg (by simp [h]), blinkStep]
    simp
  refine ⟨by rw [h1], by rw [h1], by rw [h1], ?_, ?_⟩
  · rw [h1, start_blink, if_pos ⟨rfl, rfl⟩]
  · intro hab
    rw [h1, start_blink, if_neg (by simp [hab]), blinkStep]
    simp

/-- Witness for `C7_start_blink_restart`: a fresh app, red then blue. -/
theorem C7_start_blink_restart_witness :
    (start_blink true (255, 0, 0) 600 freshApp).pending = freshApp.pending + 1
    ∧ (start_blink true (255, 0, 0) 600 freshApp).blink_state = true
    ∧ (start_blink true (255, 0, 0) 600 freshApp).blink_rgb = some (255, 0, 0)
    ∧ start_blink true (255, 0, 0) 600 (start_blink true (255, 0, 0) 600 freshApp)
        = start_blink true (255, 0, 0) 600 freshApp
    ∧ (¬ (255, 0, 0) = ((0, 0, 255) : RGB) →
        (start_blink true (0, 0, 255) 600
            (start_blink true (255, 0, 0) 600 freshApp)).pending = freshApp.pending + 2
        ∧ (start_blink true (0, 0, 255) 600
            (start_blink true (255, 0, 0) 600 freshApp)).blink_state = true
        ∧ (start_blink true (0, 0, 255) 600
            (start_blink true (255, 0, 0) 600 freshApp)).blink_rgb = some (0, 0, 255)) :=
  C7_start_blink_restart true freshApp (255, 0, 0) (0, 0, 255) 600 600 rfl

/-! ## Claim C8 — heartbeat writes when open, reconnects when closed -/

/-- Claim C8: one heartbeat-loop iteration on an open link writes the
liveness line unconditionally — the resulting state is exactly the input
with the (newline-normalised) heartbeat message appended to the transport
log, for any `last_sent`/`last_rgb`, so no change suppression applies, and
`reconnect_attempts` is untouched. On a closed link with auto-reconnect it
only attempts `try_reconnect`: nothing is written and the attempt counter
rises by one. The two branches are exclusive, so a tick never both writes a
heartbeat and attempts a reconnect. -/
theorem C8_heartbeat_tick (s : SLState) (rOk : Bool) :
    (s.isOpen = true →
      heartbeatTick true rOk s
        = some { s with written := s.written ++ [wireLine s.heartbeat_message],
                        last_sent := some (wireLine s.heartbeat_message) })
    ∧ (s.isOpen = false → s.auto_reconnect = true →
      heartbeatTick true rOk s = some (try_reconnect rOk s).1
        ∧ (try_reconnect rOk s).1.written = s.written
        ∧ (try_reconnect rOk s).1.reconnect_attempts = s.reconnect_attempts + 1) := by
  constructor
  · intro hopen
    rw [heartbeatTick, if_pos hopen, send_heartbeat, sendMessage_open_write rOk s _ hopen]
    rfl
  · intro hcl har
    refine ⟨?_, ?_, ?_⟩
    · rw [heartbeatTick, if_neg (by simp [hcl]), if_pos har]
    · rw [try_reconnect]
      cases rOk <;> simp
    · rw [try_reconnect]
      cases rOk <;> simp

/-- Witness for `C8_heartbeat_tick`: the open branch on a fresh link and the
closed branch on a closed link with a port available. -/
theorem C8_heartbeat_tick_witness :
    heartbeatTick true true freshSL
        = some { freshSL with
                   written := freshSL.written ++ [wireLine freshSL.heartbeat_message],
                   last_sent := some (wireLine freshSL.heartbeat_message) }
    ∧ (heartbeatTick true true closedSL = some (try_reconnect true closedSL).1
        ∧ (try_reconnect true closedSL).1.written = closedSL.written
        ∧ (try_reconnect true closedSL).1.reconnect_attempts
            = closedSL.reconnect_attempts + 1) :=
  ⟨(C8_heartbeat_tick freshSL true).1 rfl, (C8_heartbeat_tick closedSL true).2 rfl rfl⟩

/-! ## Claim C9 — wire protocol conformance -/

/-- Claim C9's heartbeat half is false as stated: the heartbeat line is not
sent verbatim. `send_message` appends `"\n"` whenever the message does not
already end with one, and the constructor default is the typo `"Hallo/n"`,
so the bytes on the wire are `"Hallo/n\n"`, not the configured message. -/
theorem C9_counterexample :
    (send_heartbeat true true freshSL).map (fun p => p.1.written)
        = some ["Hallo/n\n".toList]
    ∧ ¬ ("Hallo/n\n".toList = "Hallo/n".toList) := by
  constructor
  · rfl
  · decide

/-- Claim C9 (amended): every color write on the wire is exactly
`LED <r> <g> <b>\n` with each channel an integer in `[0,255]`, and every
heartbeat write is the configured heartbeat message with a newline appended
when (and only when) it does not already end in one (`wireLine`); it is
verbatim only for messages already newline-terminated. -/
theorem C9_wire_format (s : SLState) (c : RGB) (rOk : Bool)
    (hopen : s.isOpen = true)
    (hne : ¬ s.last_rgb = some (scaleRGB s.brightness c)) :
    (∃ s1 r g b, send_rgb_if_changed true rOk c s = some (s1, true)
        ∧ r ≤ 255 ∧ g ≤ 255 ∧ b ≤ 255
        ∧ s1.written = s.written
            ++ ["LED ".toList ++ decChars r ++ [' '] ++ decChars g ++ [' ']
                 ++ decChars b ++ ['\n']])
    ∧ (∃ s2, send_heartbeat true rOk s = some (s2, true)
        ∧ s2.written = s.written ++ [wireLine s.heartbeat_message]) := by
  constructor
  · refine ⟨_, scaleChan s.brightness c.1, scaleChan s.brightness c.2.1,
      scaleChan s.brightness c.2.2, send_rgb_open_changed rOk s c hopen hne,
      scaleChan_le_255 _ _, scaleChan_le_255 _ _, scaleChan_le_255 _ _, ?_⟩
    show s.written ++ [wireLine (ledMsg (scaleRGB s.brightness c))] = _
    rw [wireLine_ledMsg]
    simp [ledMsg, scaleRGB]
  · exact ⟨_, by rw [send_heartbeat, sendMessage_open_write rOk s _ hopen], rfl⟩

/-- Witness for `C9_wire_format`: a fresh open link and the color
`(10, 20, 30)`. -/
theorem C9_wire_format_witness :
    (∃ s1 r g b, send_rgb_if_changed true true (10, 20, 30) freshSL = some (s1, true)
        ∧ r ≤ 255 ∧ g ≤ 255 ∧ b ≤ 255
        ∧ s1.written = freshSL.written
            ++ ["LED ".toList ++ decChars r ++ [' '] ++ decChars g ++ [' ']
                 ++ decChars b ++ ['\n']])
    ∧ (∃ s2, send_heartbeat true true freshSL = some (s2, true)
        ∧ s2.written = freshSL.written ++ [wireLine freshSL.heartbeat_message]) :=
  C9_wire_format freshSL (10, 20, 30) true rfl (by simp [freshSL])

/-! ## Claim C10 — hex formatting and hex_to_rgb are inverse -/

lemma hexVal_hexDigitChar (d : ℕ) (hd : d < 16) : hexVal (hexDigitChar d) = some d := by
  interval_cases d <;> decide

lemma hexDigitChar_ne_hash (d : ℕ) (hd : d < 16) : ¬ hexDigitChar d = '#' := by
  interval_cases d <;> decide

lemma parseHex2_digits (n : ℕ) (hn : n ≤ 255) :
    parseHex2 [hexDigitChar (n / 16), hexDigitChar (n % 16)] = some n := by
  have h1 : hexVal (hexDigitChar (n / 16)) = some (n / 16) :=
    hexVal_hexDigitChar _ (by omega)
  have h2 : hexVal (hexDigitChar (n % 16)) = some (n % 16) :=
    hexVal_hexDigitChar _ (by omega)
  simp [parseHex2, h1, h2]
  omega

/-- Claim C10: for 8-bit channels, parsing the `'#%02x%02x%02x'`-formatted
string with `hex_to_rgb` returns exactly the original triple. -/
theorem C10_hex_roundtrip (r g b : ℕ) (hr : r ≤ 255) (hg : g ≤ 255)
    (hb : b ≤ 255) :
    hex_to_rgb (colorHex (r, g, b)) = some (r, g, b) := by
  have hr2 := parseHex2_digits r hr
  have hg2 := parseHex2_digits g hg
  have hb2 := parseHex2_digits b hb
  have hner : ¬ (hexDigitChar (r / 16) = '#') := hexDigitChar_ne_hash _ (by omega)
  rw [hex_to_rgb, colorHex]
  simp only [fmt02x, List.cons_append, List.nil_append, List.dropWhile_cons,
    decide_eq_true_eq, if_true, if_pos rfl, hner, if_false, decide_not]
  simp [List.take, List.drop, hr2, hg2, hb2, hner]

/-- Witness for `C10_hex_roundtrip`: the Test-mode UI color `#f9a825`. -/
theorem C10_hex_roundtrip_witness :
    hex_to_rgb (colorHex (249, 168, 37)) = some (249, 168, 37) :=
  C10_hex_roundtrip 249 168 37 (by norm_num) (by norm_num) (by norm_num)

end RSL
